import Mathlib

set_option maxHeartbeats 1600000

/-!
Shallow embedding of the skill-based matching and gap-analysis engine of the
PathFinder repository (`backend/services/matching_service.py` and
`backend/services/skill_graph_service.py`), together with theorems settling
the specification claims about it.

Modelling conventions: Python numeric scores are modelled over `ℚ`; Python
dict literals appear as association lists queried with `List.lookup`
(mirroring `dict.get(key, default)` via `Option.getD`); optional values are
`Option` (Python falsiness of `None` and of `""`/`0` is modelled explicitly
where the code relies on it); the stable sort behind
`list.sort(key=..., reverse=True)` is modelled by the stable
`List.insertionSort` with the corresponding descending relation; the
database session is modelled by an explicit list of rows; external
collaborators (the embedding provider and the pgvector cosine-similarity
operator, both outside this repository) are passed in as explicit function
parameters.
-/

/-- The five-level proficiency scale, `SkillLevel(str, Enum)` in
skill_graph_service.py (novice, beginner, intermediate, advanced, expert). -/
inductive SkillLevel where
  | novice
  | beginner
  | intermediate
  | advanced
  | expert
deriving DecidableEq, Repr, Fintype

/-- The string value carried by each `SkillLevel` enum member. -/
def SkillLevel.value : SkillLevel → String
  | .novice => "novice"
  | .beginner => "beginner"
  | .intermediate => "intermediate"
  | .advanced => "advanced"
  | .expert => "expert"

/-- Match tiers, `MatchType(str, Enum)` in matching_service.py.  The Python
member `PARTIAL` (string value "partial") is rendered here as
`partial_match`. -/
inductive MatchType where
  | exact
  | partial_match
  | potential
  | stretch
deriving DecidableEq, Repr

/-- Skill categories, `SkillCategory(str, Enum)` in skill_graph_service.py. -/
inductive SkillCategory where
  | technical
  | soft_skills
  | language
  | certification
  | domain_knowledge
  | tool
  | framework
  | methodology
deriving DecidableEq, Repr

/-- The string value carried by each `SkillCategory` enum member. -/
def SkillCategory.value : SkillCategory → String
  | .technical => "technical"
  | .soft_skills => "soft_skills"
  | .language => "language"
  | .certification => "certification"
  | .domain_knowledge => "domain_knowledge"
  | .tool => "tool"
  | .framework => "framework"
  | .methodology => "methodology"

/-- Python `str.lower()` as used for the case-insensitive skill-name
comparison in `create_skill`: lowercases every character. -/
def str_lower (s : String) : String := ⟨s.data.map Char.toLower⟩

/-- A row of the `SkillGraph` table as written by
`SkillGraphService.create_skill` and read by the semantic search
(skill_graph_service.py lines 452-464).  `uuid4()` identities are modelled
as naturals. -/
structure Skill where
  id : Nat
  name : String
  category : String
  description : Option String
  parent_skill_id : Option Nat
  skill_path : String
  level : Nat
  embedding : List ℚ
  popularity_score : ℚ
  market_demand : ℚ
  is_active : Bool
deriving DecidableEq, Repr

/-- The `SkillSearchResult` dataclass (skill_graph_service.py lines 57-66)
as populated by `search_skills_semantic`. -/
structure SkillSearchResult where
  skill_id : Nat
  name : String
  category : String
  similarity : ℚ
  description : Option String
  popularity_score : ℚ
  market_demand : ℚ
deriving DecidableEq, Repr

namespace MatchingService

/-- The dict `level_scores` local to
`MatchingService._calculate_skill_match_score` (matching_service.py lines
641-647): ordinals 1..5 for the five scale values. -/
def level_scores : List (String × Nat) :=
  [("novice", 1), ("beginner", 2), ("intermediate", 3), ("advanced", 4), ("expert", 5)]

/-- `MatchingService._calculate_skill_match_score` (matching_service.py lines
632-657).  `if not current_level` is true in Python for both `None` and the
empty string; `level_scores.get(current_level, 0)` defaults an unknown
current level to 0 and `level_scores.get(required_level, 1)` defaults an
unknown required level to 1. -/
def calculate_skill_match_score (current_level : Option String) (required_level : String) : ℚ :=
  if current_level = none ∨ current_level = some "" then 0
  else
    let current_score : Nat := (level_scores.lookup (current_level.getD "")).getD 0
    let required_score : Nat := (level_scores.lookup required_level).getD 1
    if required_score ≤ current_score then 1
    else (current_score : ℚ) / (required_score : ℚ)

/-- The dict `self.weights` set in `MatchingService.__init__`
(matching_service.py lines 91-97). -/
def weights : List (String × ℚ) :=
  [("hard_skills", 4/10), ("soft_skills", 2/10), ("experience", 25/100), ("culture_fit", 15/100)]

/-- The total-score combination in `MatchingService.match_employee_to_vacancy`
(matching_service.py lines 237-243): each component score is multiplied by
its entry of `self.weights` and the products are summed. -/
def total_score (hard_skills_score soft_skills_score experience_score culture_fit_score : ℚ) : ℚ :=
  hard_skills_score * (weights.lookup "hard_skills").getD 0 +
  soft_skills_score * (weights.lookup "soft_skills").getD 0 +
  experience_score * (weights.lookup "experience").getD 0 +
  culture_fit_score * (weights.lookup "culture_fit").getD 0

/-- The dict `self.match_thresholds` set in `MatchingService.__init__`
(matching_service.py lines 99-105). -/
def match_thresholds : MatchType → ℚ
  | .exact => 9/10
  | .partial_match => 7/10
  | .potential => 5/10
  | .stretch => 3/10

/-- `MatchingService._determine_match_type` (matching_service.py lines
695-704): thresholds checked top-down, first match wins, `stretch`
otherwise. -/
def determine_match_type (score : ℚ) : MatchType :=
  if score ≥ match_thresholds .exact then .exact
  else if score ≥ match_thresholds .partial_match then .partial_match
  else if score ≥ match_thresholds .potential then .potential
  else .stretch

/-- `MatchingService._calculate_experience_score` (matching_service.py lines
589-606).  `if not employee.experience_years` is true in Python for `None`
and for `0`; `vacancy.min_experience_years or 0` coalesces `None` (and `0`)
to `0`. -/
def calculate_experience_score (experience_years : Option ℚ) (min_experience_years : Option ℚ) : ℚ :=
  if experience_years = none ∨ experience_years = some 0 then 3/10
  else
    let employee_experience := experience_years.getD 0
    let required_experience := min_experience_years.getD 0
    if employee_experience ≥ required_experience then
      let excess_years := employee_experience - required_experience
      let bonus := min (3/10) (excess_years * (5/100))
      min 1 (8/10 + bonus)
    else
      max (2/10) (employee_experience / required_experience * (7/10))

/-- The dict `level_order` local to `MatchingService._calculate_gap_severity`
(matching_service.py lines 674-680): ordinals 0..4 for the five scale
values. -/
def level_order : List (String × Nat) :=
  [("novice", 0), ("beginner", 1), ("intermediate", 2), ("advanced", 3), ("expert", 4)]

/-- `MatchingService._calculate_gap_severity` (matching_service.py lines
659-693), keyed by level strings with `dict.get(level, 0)` defaults.
`requirements.get('is_critical', ...)` is modelled as the Bool argument. -/
def calculate_gap_severity (current_level : Option String) (required_level : String)
    (is_critical : Bool) : String :=
  if current_level = none ∨ current_level = some "" then
    if is_critical then "critical"
    else if required_level = "advanced" ∨ required_level = "expert" then "high"
    else "medium"
  else
    let current_score : Int := ((level_order.lookup (current_level.getD "")).getD 0 : Nat)
    let required_score : Int := ((level_order.lookup required_level).getD 0 : Nat)
    let gap := required_score - current_score
    if gap ≤ 0 then "none"
    else if gap = 1 then "low"
    else if gap = 2 then "medium"
    else if !is_critical then "high" else "critical"

/-- The `SkillMatch` dataclass (matching_service.py lines 37-48); the
`development_time_weeks` field defaults to `None` and is never read by the
scoring code, so it is omitted. -/
structure SkillMatch where
  skill_id : Nat
  skill_name : String
  required_level : String
  current_level : Option String
  match_score : ℚ
  is_critical : Bool
  weight : ℚ
  gap_severity : String
deriving Repr, DecidableEq

/-- `MatchingService._calculate_hard_skills_score` (matching_service.py lines
541-555): weighted average of match scores with critical skills counted at
twice their weight; an empty requirement list and a non-positive total
effective weight both yield 0.0 (the accumulation loop is rendered as the
corresponding map-sums). -/
def calculate_hard_skills_score (skill_matches : List SkillMatch) : ℚ :=
  if skill_matches = [] then 0
  else if 0 < (skill_matches.map (fun m => m.weight * (if m.is_critical then 2 else 1))).sum then
    (skill_matches.map (fun m => m.match_score * (m.weight * (if m.is_critical then 2 else 1)))).sum /
      (skill_matches.map (fun m => m.weight * (if m.is_critical then 2 else 1))).sum
  else 0

/-- The fields of `CandidateRanking` that the ranking loop of
`MatchingService.find_candidates_for_vacancy` reads when filtering and
ordering (matching_service.py lines 150-179): the per-employee total score
and match type, tagged with the employee identity. -/
structure Candidate where
  employee_id : Nat
  total_score : ℚ
  match_type : MatchType
deriving DecidableEq, Repr

/-- The keep-condition of the candidate loop (matching_service.py lines
156-159): total score at least `min_score`, and stretch matches dropped
unless `include_stretch`. -/
def candidate_filter (min_score : ℚ) (include_stretch : Bool) (candidates : List Candidate) :
    List Candidate :=
  candidates.filter (fun c =>
    decide (c.total_score ≥ min_score) && (include_stretch || !decide (c.match_type = .stretch)))

/-- The ordering step
`candidates.sort(key=lambda x: x.match_result.total_score, reverse=True)`
(matching_service.py line 172): Python's stable sort, descending by total
score only, modelled by the stable `List.insertionSort` with the descending
relation on scores. -/
def find_candidates_order (candidates : List Candidate) (min_score : ℚ)
    (include_stretch : Bool) : List Candidate :=
  (candidate_filter min_score include_stretch candidates).insertionSort
    (fun a b => b.total_score ≤ a.total_score)

/-- `MatchingService.find_candidates_for_vacancy` over the per-employee match
results in employee arrival order (matching_service.py lines 150-179):
filter, sort descending by total score, truncate to `limit`, assign ranks
1..N. -/
def find_candidates_for_vacancy (candidates : List Candidate) (limit : Nat) (min_score : ℚ)
    (include_stretch : Bool) : List (Nat × Candidate) :=
  ((find_candidates_order candidates min_score include_stretch).take limit).enum.map
    (fun p => (p.1 + 1, p.2))

end MatchingService

namespace SkillGraphService

/-- The dict `level_order` local to `SkillGraphService._calculate_gap_severity`
(skill_graph_service.py lines 546-552), a total map on the enum. -/
def level_order : SkillLevel → Nat
  | .novice => 0
  | .beginner => 1
  | .intermediate => 2
  | .advanced => 3
  | .expert => 4

/-- `SkillGraphService._calculate_gap_severity` (skill_graph_service.py lines
529-565), keyed by `SkillLevel` enum members.
`requirements.get('is_critical', ...)` is modelled as the Bool argument. -/
def calculate_gap_severity (current_level : Option SkillLevel) (required_level : SkillLevel)
    (is_critical : Bool) : String :=
  match current_level with
  | none =>
      if is_critical then "critical"
      else if required_level = .advanced ∨ required_level = .expert then "high"
      else "medium"
  | some current =>
      let gap : Int := (level_order required_level : Int) - (level_order current : Int)
      if gap ≤ 0 then "none"
      else if gap = 1 then "low"
      else if gap = 2 then "medium"
      else if !is_critical then "high" else "critical"

/-- `SkillGraphService.create_skill` (skill_graph_service.py lines 402-474)
over an explicit store state.  The case-insensitive existence check returns
the existing row's id without writing; otherwise a new active row is
appended with hierarchy data derived from the optional parent.  `uuid4()` is
modelled by the caller-supplied fresh `new_id` and the external
`ai_service.get_embedding` collaborator by the function parameter `embed`. -/
def create_skill (embed : String → List ℚ) (store : List Skill) (new_id : Nat) (name : String)
    (category : SkillCategory) (description : Option String) (parent_skill_id : Option Nat) :
    Nat × List Skill :=
  match store.find? (fun s => str_lower s.name == str_lower name) with
  | some existing_skill => (existing_skill.id, store)
  | none =>
      let embedding_text := name ++ " " ++ description.getD "" ++ " " ++ category.value
      let embedding := embed embedding_text
      let parent_skill := parent_skill_id.bind (fun pid => store.find? (fun s => s.id == pid))
      let level := match parent_skill with
        | some p => p.level + 1
        | none => 1
      let skill_path := match parent_skill with
        | some p => p.skill_path ++ " > " ++ name
        | none => name
      let new_skill : Skill :=
        { id := new_id, name := name, category := category.value, description := description,
          parent_skill_id := parent_skill_id, skill_path := skill_path, level := level,
          embedding := embedding, popularity_score := 0, market_demand := 0, is_active := true }
      (new_id, store ++ [new_skill])

/-- `SkillGraphService.search_skills_semantic` (skill_graph_service.py lines
100-173).  The external embedding call is `query_embedding` (`none` models a
failed call, whose exception handler returns the empty list); the pgvector
cosine-similarity expression `1 - (embedding <=> q)` is the function
parameter `similarity`.  The SQL query keeps active rows (optionally
restricted to the given categories) whose similarity is at least the
threshold, orders them by descending similarity (ascending distance) and
truncates to `limit`; the rows are then mapped to `SkillSearchResult`. -/
def search_skills_semantic (similarity : List ℚ → List ℚ → ℚ)
    (query_embedding : Option (List ℚ)) (store : List Skill) (limit : Nat)
    (similarity_threshold : ℚ) (categories : Option (List String)) : List SkillSearchResult :=
  match query_embedding with
  | none => []
  | some q =>
      let rows := (store.filter (fun s =>
        s.is_active &&
        (match categories with
          | none => true
          | some cats => cats.contains s.category) &&
        decide (similarity q s.embedding ≥ similarity_threshold))).insertionSort
          (fun a b => similarity q b.embedding ≤ similarity q a.embedding)
      (rows.take limit).map (fun s =>
        { skill_id := s.id, name := s.name, category := s.category,
          similarity := similarity q s.embedding, description := s.description,
          popularity_score := s.popularity_score, market_demand := s.market_demand })

end SkillGraphService

/-- Rank of a gap severity on the spec's ordered scale
none < low < medium < high < critical (used to state monotonicity). -/
def severity_rank : String → Nat
  | "none" => 0
  | "low" => 1
  | "medium" => 2
  | "high" => 3
  | "critical" => 4
  | _ => 0

/-- The correspondence between level strings (as used by `MatchingService`)
and `SkillLevel` enum members (as used by `SkillGraphService`). -/
def level_values : List (String × SkillLevel) :=
  [("novice", .novice), ("beginner", .beginner), ("intermediate", .intermediate),
    ("advanced", .advanced), ("expert", .expert)]

/-- Rank of a match tier, `stretch` lowest and `exact` highest, following the
spec ordering of match types (used to state monotonicity of the
classifier). -/
def match_type_rank : MatchType → Nat
  | .stretch => 0
  | .potential => 1
  | .partial_match => 2
  | .exact => 3

theorem level_scores_lookup_novice : MatchingService.level_scores.lookup "novice" = some 1 := rfl

theorem level_scores_lookup_beginner :
    MatchingService.level_scores.lookup "beginner" = some 2 := rfl

theorem level_scores_lookup_intermediate :
    MatchingService.level_scores.lookup "intermediate" = some 3 := rfl

theorem level_scores_lookup_advanced :
    MatchingService.level_scores.lookup "advanced" = some 4 := rfl

theorem level_scores_lookup_expert : MatchingService.level_scores.lookup "expert" = some 5 := rfl

theorem weights_lookup_hard : (MatchingService.weights.lookup "hard_skills").getD 0 = 4/10 := rfl

theorem weights_lookup_soft : (MatchingService.weights.lookup "soft_skills").getD 0 = 2/10 := rfl

theorem weights_lookup_experience :
    (MatchingService.weights.lookup "experience").getD 0 = 25/100 := rfl

theorem weights_lookup_culture :
    (MatchingService.weights.lookup "culture_fit").getD 0 = 15/100 := rfl

/-- When no row matches the case-insensitive name lookup, `create_skill`
appends exactly one new row carrying the requested id and name. -/
theorem create_skill_fresh (embed : String → List ℚ) (store : List Skill) (new_id : Nat)
    (name : String) (category : SkillCategory) (description : Option String)
    (parent_skill_id : Option Nat)
    (h : store.find? (fun s => str_lower s.name == str_lower name) = none) :
    ∃ sk : Skill, sk.id = new_id ∧ sk.name = name ∧
      SkillGraphService.create_skill embed store new_id name category description parent_skill_id
        = (new_id, store ++ [sk]) := by
  simp only [SkillGraphService.create_skill, h]
  exact ⟨_, rfl, rfl, rfl⟩

/-- When the case-insensitive name lookup finds a row, `create_skill`
returns its id and leaves the store unchanged. -/
theorem create_skill_existing (embed : String → List ℚ) (store : List Skill) (new_id : Nat)
    (name : String) (category : SkillCategory) (description : Option String)
    (parent_skill_id : Option Nat) (sk : Skill)
    (h : store.find? (fun s => str_lower s.name == str_lower name) = some sk) :
    SkillGraphService.create_skill embed store new_id name category description parent_skill_id
      = (sk.id, store) := by
  simp only [SkillGraphService.create_skill, h]

/-- C1: over the five-value ordinal scale, the per-skill match score equals
1.0 exactly when the current ordinal is at least the required ordinal;
otherwise it equals current_ordinal / required_ordinal and lies strictly in
(0,1); with no record for the skill the match score is 0.0. -/
theorem c1_skill_match_score (c r : String) (cn rn : Nat)
    (hc : (c, cn) ∈ MatchingService.level_scores)
    (hr : (r, rn) ∈ MatchingService.level_scores) :
    (MatchingService.calculate_skill_match_score (some c) r = 1 ↔ rn ≤ cn) ∧
    (cn < rn →
      MatchingService.calculate_skill_match_score (some c) r = (cn : ℚ) / (rn : ℚ) ∧
      0 < MatchingService.calculate_skill_match_score (some c) r ∧
      MatchingService.calculate_skill_match_score (some c) r < 1) ∧
    MatchingService.calculate_skill_match_score none r = 0 := by
  simp only [MatchingService.level_scores, List.mem_cons, List.not_mem_nil, or_false,
    Prod.mk.injEq] at hc hr
  rcases hc with ⟨rfl, rfl⟩ | ⟨rfl, rfl⟩ | ⟨rfl, rfl⟩ | ⟨rfl, rfl⟩ | ⟨rfl, rfl⟩ <;>
    rcases hr with ⟨rfl, rfl⟩ | ⟨rfl, rfl⟩ | ⟨rfl, rfl⟩ | ⟨rfl, rfl⟩ | ⟨rfl, rfl⟩ <;>
    simp [MatchingService.calculate_skill_match_score, level_scores_lookup_novice,
      level_scores_lookup_beginner, level_scores_lookup_intermediate,
      level_scores_lookup_advanced, level_scores_lookup_expert] <;>
    norm_num

/-- Witness for C1 at current level "advanced" (ordinal 4) against required
level "expert" (ordinal 5). -/
theorem c1_skill_match_score_witness :
    ("advanced", 4) ∈ MatchingService.level_scores ∧
    ("expert", 5) ∈ MatchingService.level_scores ∧
    MatchingService.calculate_skill_match_score (some "advanced") "expert" = (4 : ℚ) / 5 :=
  ⟨by decide, by decide,
    ((c1_skill_match_score "advanced" "expert" 4 5 (by decide) (by decide)).2.1 (by decide)).1⟩

/-- C2: gap severity for an absent skill is critical when the requirement is
critical, else high for an advanced/expert requirement, else medium; for a
present skill the ordinal gap maps to none (gap ≤ 0), low (1), medium (2),
and high for gap ≥ 3, escalated to critical exactly when the requirement is
critical; and severity is monotone non-decreasing in the ordinal gap. -/
theorem c2_gap_severity (req : SkillLevel) (crit : Bool) (c c1 c2 : SkillLevel)
    (hmono : (SkillGraphService.level_order req : Int) - (SkillGraphService.level_order c1 : Int)
      ≤ (SkillGraphService.level_order req : Int) - (SkillGraphService.level_order c2 : Int)) :
    (SkillGraphService.calculate_gap_severity none req crit =
      if crit then "critical"
      else if req = SkillLevel.advanced ∨ req = SkillLevel.expert then "high"
      else "medium") ∧
    ((SkillGraphService.level_order req : Int) - (SkillGraphService.level_order c : Int) ≤ 0 →
      SkillGraphService.calculate_gap_severity (some c) req crit = "none") ∧
    ((SkillGraphService.level_order req : Int) - (SkillGraphService.level_order c : Int) = 1 →
      SkillGraphService.calculate_gap_severity (some c) req crit = "low") ∧
    ((SkillGraphService.level_order req : Int) - (SkillGraphService.level_order c : Int) = 2 →
      SkillGraphService.calculate_gap_severity (some c) req crit = "medium") ∧
    (3 ≤ (SkillGraphService.level_order req : Int) - (SkillGraphService.level_order c : Int) →
      SkillGraphService.calculate_gap_severity (some c) req crit =
        if crit then "critical" else "high") ∧
    severity_rank (SkillGraphService.calculate_gap_severity (some c1) req crit) ≤
      severity_rank (SkillGraphService.calculate_gap_severity (some c2) req crit) := by
  revert hmono
  revert crit c c1 c2 req
  decide

/-- Witness for C2: an expert requirement, critical, against a novice current
level (gap 4) is classified critical, and severity at gap 4 dominates
severity at gap 4. -/
theorem c2_gap_severity_witness :
    SkillGraphService.calculate_gap_severity (some .novice) .expert true = "critical" ∧
    severity_rank (SkillGraphService.calculate_gap_severity (some .novice) .expert true) ≤
      severity_rank (SkillGraphService.calculate_gap_severity (some .novice) .expert true) :=
  ⟨(c2_gap_severity .expert true .novice .advanced .novice (by decide)).2.2.2.2.1 (by decide),
    (c2_gap_severity .expert true .novice .novice .novice (by decide)).2.2.2.2.2⟩

/-- C3: the total match score is always the fixed linear combination
0.40·hard + 0.20·soft + 0.25·experience + 0.15·culture (no renormalization
for any component values, in particular not when a sub-score came from zero
inputs); the four weights sum to 1.0; and whenever all four components lie
in [0,1] the total score lies in [0,1]. -/
theorem c3_total_score_combination (h s e c : ℚ) :
    MatchingService.total_score h s e c = (4/10) * h + (2/10) * s + (25/100) * e + (15/100) * c ∧
    (MatchingService.weights.map Prod.snd).sum = 1 ∧
    (0 ≤ h → h ≤ 1 → 0 ≤ s → s ≤ 1 → 0 ≤ e → e ≤ 1 → 0 ≤ c → c ≤ 1 →
      0 ≤ MatchingService.total_score h s e c ∧ MatchingService.total_score h s e c ≤ 1) := by
  have heq : MatchingService.total_score h s e c
      = (4/10) * h + (2/10) * s + (25/100) * e + (15/100) * c := by
    rw [MatchingService.total_score, weights_lookup_hard, weights_lookup_soft,
      weights_lookup_experience, weights_lookup_culture]
    ring
  refine ⟨heq, by norm_num [MatchingService.weights], ?_⟩
  intro h0 h1 s0 s1 e0 e1 c0 c1
  rw [heq]
  constructor <;> nlinarith

/-- Witness for C3 at the spec's example component scores
hard=0.8, soft=0.7, experience=0.6, culture=0.9 (total 0.745). -/
theorem c3_total_score_combination_witness :
    MatchingService.total_score (8/10) (7/10) (6/10) (9/10) = 745/1000 ∧
    0 ≤ MatchingService.total_score (8/10) (7/10) (6/10) (9/10) ∧
    MatchingService.total_score (8/10) (7/10) (6/10) (9/10) ≤ 1 := by
  have h := c3_total_score_combination (8/10) (7/10) (6/10) (9/10)
  refine ⟨?_, h.2.2 (by norm_num) (by norm_num) (by norm_num) (by norm_num)
    (by norm_num) (by norm_num) (by norm_num) (by norm_num)⟩
  rw [h.1]; norm_num

/-- C4: the match type is `exact` for score ≥ 0.9, else `partial` for
score ≥ 0.7, else `potential` for score ≥ 0.5, else `stretch` (thresholds
evaluated top-down), and the assignment is monotone non-decreasing in the
score. -/
theorem c4_match_type_thresholds (x y : ℚ) (hxy : x ≤ y) :
    (9/10 ≤ x → MatchingService.determine_match_type x = .exact) ∧
    (7/10 ≤ x → x < 9/10 → MatchingService.determine_match_type x = .partial_match) ∧
    (5/10 ≤ x → x < 7/10 → MatchingService.determine_match_type x = .potential) ∧
    (x < 5/10 → MatchingService.determine_match_type x = .stretch) ∧
    match_type_rank (MatchingService.determine_match_type x) ≤
      match_type_rank (MatchingService.determine_match_type y) := by
  simp only [MatchingService.determine_match_type, MatchingService.match_thresholds, ge_iff_le]
  refine ⟨?_, ?_, ?_, ?_, ?_⟩
  · intro hx; rw [if_pos hx]
  · intro hx hx'; rw [if_neg (by linarith), if_pos hx]
  · intro hx hx'; rw [if_neg (by linarith), if_neg (by linarith), if_pos hx]
  · intro hx; rw [if_neg (by linarith), if_neg (by linarith), if_neg (by linarith)]
  · split_ifs <;> simp [match_type_rank] <;> linarith

/-- Witness for C4 at scores 0.745 ≤ 0.95: tier partial, below tier exact. -/
theorem c4_match_type_thresholds_witness :
    MatchingService.determine_match_type (745/1000) = .partial_match ∧
    match_type_rank (MatchingService.determine_match_type (745/1000)) ≤
      match_type_rank (MatchingService.determine_match_type (95/100)) :=
  ⟨(c4_match_type_thresholds (745/1000) (95/100) (by norm_num)).2.1
      (by norm_num) (by norm_num),
    (c4_match_type_thresholds (745/1000) (95/100) (by norm_num)).2.2.2.2⟩

/-- C5: the experience score is min(1.0, 0.8 + min(0.3, 0.05·excess)) when
profile experience meets the requirement, max(0.2, (profile/required)·0.7)
when it falls short (1 year against a 5-year requirement scoring exactly
0.2), and 0.3 when the profile declares no experience. -/
theorem c5_experience_score (e r : ℚ) (he : e ≠ 0) :
    MatchingService.calculate_experience_score none (some r) = 3/10 ∧
    (r ≤ e → MatchingService.calculate_experience_score (some e) (some r)
      = min 1 (8/10 + min (3/10) ((5/100) * (e - r)))) ∧
    (e < r → MatchingService.calculate_experience_score (some e) (some r)
      = max (2/10) (e / r * (7/10))) ∧
    MatchingService.calculate_experience_score (some 1) (some 5) = 2/10 := by
  refine ⟨by simp [MatchingService.calculate_experience_score], ?_, ?_, ?_⟩
  · intro hre
    simp only [MatchingService.calculate_experience_score, Option.getD_some]
    rw [if_neg (by simp [he]), if_pos (by exact hre)]
    rw [mul_comm (e - r) (5/100)]
  · intro her
    simp only [MatchingService.calculate_experience_score, Option.getD_some]
    rw [if_neg (by simp [he]), if_neg (by exact not_le.mpr her)]
  · simp only [MatchingService.calculate_experience_score, Option.getD_some]
    rw [if_neg (by simp), if_neg (by norm_num)]
    norm_num

/-- Witness for C5 at the spec's example: 1 year of experience against a
5-year requirement scores 0.2, and an absent experience field scores 0.3. -/
theorem c5_experience_score_witness :
    MatchingService.calculate_experience_score (some 1) (some 5) = 2/10 ∧
    MatchingService.calculate_experience_score none (some 5) = 3/10 :=
  ⟨(c5_experience_score 1 5 (by norm_num)).2.2.2, (c5_experience_score 1 5 (by norm_num)).1⟩

/-- C6: `create_skill` is idempotent under case-insensitive name collision:
starting from a store with no row of the given name, a second call whose
name is equal up to case returns the identity created by the first call,
leaves the store unchanged, and the store holds exactly one row with that
name. -/
theorem c6_create_skill_idempotent (embed : String → List ℚ) (store : List Skill)
    (id1 id2 : Nat) (n1 n2 : String) (cat1 cat2 : SkillCategory)
    (d1 d2 : Option String) (p1 p2 : Option Nat)
    (hfresh : ∀ s ∈ store, str_lower s.name ≠ str_lower n1)
    (hcase : str_lower n2 = str_lower n1) :
    (SkillGraphService.create_skill embed
        (SkillGraphService.create_skill embed store id1 n1 cat1 d1 p1).2 id2 n2 cat2 d2 p2).1
      = (SkillGraphService.create_skill embed store id1 n1 cat1 d1 p1).1 ∧
    (SkillGraphService.create_skill embed
        (SkillGraphService.create_skill embed store id1 n1 cat1 d1 p1).2 id2 n2 cat2 d2 p2).2
      = (SkillGraphService.create_skill embed store id1 n1 cat1 d1 p1).2 ∧
    ((SkillGraphService.create_skill embed
        (SkillGraphService.create_skill embed store id1 n1 cat1 d1 p1).2 id2 n2 cat2 d2 p2).2.filter
        (fun s => str_lower s.name == str_lower n2)).length = 1 := by
  have hfind1 : store.find? (fun s => str_lower s.name == str_lower n1) = none := by
    rw [List.find?_eq_none]
    intro s hs
    simpa using hfresh s hs
  obtain ⟨sk, hid, hname, h1⟩ := create_skill_fresh embed store id1 n1 cat1 d1 p1 hfind1
  have hstore2 : (store.find? fun s => str_lower s.name == str_lower n2) = none := by
    rw [List.find?_eq_none]
    intro s hs
    simpa [hcase] using hfresh s hs
  have hsk_pred : (fun s : Skill => str_lower s.name == str_lower n2) sk = true := by
    simp [hname, hcase]
  have hfind2 : (store ++ [sk]).find? (fun s => str_lower s.name == str_lower n2) = some sk := by
    rw [List.find?_append, hstore2]
    simp [List.find?, hsk_pred]
  have h2 := create_skill_existing embed (store ++ [sk]) id2 n2 cat2 d2 p2 sk hfind2
  rw [h1]
  refine ⟨?_, ?_, ?_⟩
  · rw [h2]; exact hid
  · rw [h2]
  · rw [h2]
    rw [List.filter_append]
    have hnil : store.filter (fun s => str_lower s.name == str_lower n2) = [] := by
      rw [List.filter_eq_nil_iff]
      intro s hs
      simpa [hcase] using hfresh s hs
    rw [hnil]
    simp [List.filter, hsk_pred]

/-- Witness for C6 at the spec's example: create "Python", then "python";
the second call returns the first identity and the store holds exactly one
such row. -/
theorem c6_create_skill_idempotent_witness :
    (SkillGraphService.create_skill (fun _ => [])
        (SkillGraphService.create_skill (fun _ => []) [] 7 "Python" .technical none none).2
        8 "python" .technical none none).1
      = (SkillGraphService.create_skill (fun _ => []) [] 7 "Python" .technical none none).1 ∧
    ((SkillGraphService.create_skill (fun _ => [])
        (SkillGraphService.create_skill (fun _ => []) [] 7 "Python" .technical none none).2
        8 "python" .technical none none).2.filter
        (fun s => str_lower s.name == str_lower "python")).length = 1 := by
  have h := c6_create_skill_idempotent (fun _ => []) [] 7 8 "Python" "python"
    .technical .technical none none none none (by simp) (by decide)
  exact ⟨h.1, h.2.2⟩

/-- C7: with a successfully embedded query, every search result is an active
stored skill whose similarity is at or above the threshold, the results are
ordered by descending similarity and truncated to `limit`; when no active
skill reaches the threshold, and likewise when the embedding call fails, the
result is the empty list rather than an error. -/
theorem c7_search_semantic (similarity : List ℚ → List ℚ → ℚ) (q : List ℚ)
    (store : List Skill) (limit : Nat) (similarity_threshold : ℚ)
    (categories : Option (List String)) :
    (∀ res ∈ SkillGraphService.search_skills_semantic similarity (some q) store limit
        similarity_threshold categories,
      res.similarity ≥ similarity_threshold ∧
      ∃ s ∈ store, s.is_active = true ∧ res.skill_id = s.id ∧
        res.similarity = similarity q s.embedding) ∧
    (SkillGraphService.search_skills_semantic similarity (some q) store limit
        similarity_threshold categories).Pairwise
      (fun a b => b.similarity ≤ a.similarity) ∧
    (SkillGraphService.search_skills_semantic similarity (some q) store limit
        similarity_threshold categories).length ≤ limit ∧
    (store.filter (fun s =>
        s.is_active && decide (similarity q s.embedding ≥ similarity_threshold)) = [] →
      SkillGraphService.search_skills_semantic similarity (some q) store limit
        similarity_threshold categories = []) ∧
    SkillGraphService.search_skills_semantic similarity none store limit
      similarity_threshold categories = [] := by
  refine ⟨?_, ?_, ?_, ?_, rfl⟩
  · intro res hres
    simp only [SkillGraphService.search_skills_semantic, List.mem_map] at hres
    obtain ⟨s, hs_take, rfl⟩ := hres
    have hs_sorted : s ∈ (store.filter (fun s =>
        s.is_active &&
        (match categories with
          | none => true
          | some cats => cats.contains s.category) &&
        decide (similarity q s.embedding ≥ similarity_threshold))).insertionSort
          (fun a b => similarity q b.embedding ≤ similarity q a.embedding) :=
      List.take_subset _ _ hs_take
    rw [List.mem_insertionSort, List.mem_filter] at hs_sorted
    obtain ⟨hs_store, hpred⟩ := hs_sorted
    simp only [Bool.and_eq_true, decide_eq_true_eq] at hpred
    exact ⟨hpred.2, s, hs_store, hpred.1.1, rfl, rfl⟩
  · haveI : IsTotal Skill (fun a b => similarity q b.embedding ≤ similarity q a.embedding) :=
      ⟨fun a b => le_total _ _⟩
    haveI : IsTrans Skill (fun a b => similarity q b.embedding ≤ similarity q a.embedding) :=
      ⟨fun a b c hab hbc => le_trans hbc hab⟩
    simp only [SkillGraphService.search_skills_semantic]
    refine List.Pairwise.map _ (fun a b h => h) ?_
    exact ((List.sorted_insertionSort _ _).sublist (List.take_sublist _ _))
  · simp only [SkillGraphService.search_skills_semantic, List.length_map]
    exact List.length_take_le _ _
  · intro hempty
    rw [List.filter_eq_nil_iff] at hempty
    have hsub : store.filter (fun s =>
        s.is_active &&
        (match categories with
          | none => true
          | some cats => cats.contains s.category) &&
        decide (similarity q s.embedding ≥ similarity_threshold)) = [] := by
      rw [List.filter_eq_nil_iff]
      intro s hs hp
      refine hempty s hs ?_
      rw [Bool.and_eq_true, Bool.and_eq_true] at hp
      rw [Bool.and_eq_true]
      exact ⟨hp.1.1, hp.2⟩
    simp only [SkillGraphService.search_skills_semantic]
    rw [hsub]
    simp

/-- Witness for C7: a failed embedding call yields the empty result list. -/
theorem c7_search_semantic_witness :
    SkillGraphService.search_skills_semantic (fun _ _ => 1) none [] 5 (1/2) none = [] :=
  (c7_search_semantic (fun _ _ => 1) [] [] 5 (1/2) none).2.2.2.2

/-- C8 counterexample: candidate ordering is a function of the arrival order
of the profiles, not of their set.  Two candidates with equal total score
and different identities are returned in their arrival order by
`find_candidates_for_vacancy`, so permuting the same set of profiles changes
the output: ties are not broken by a profile-identity key. -/
theorem c8_tie_order_counterexample :
    (([⟨2, 1, .potential⟩, ⟨1, 1, .potential⟩] : List MatchingService.Candidate).Perm
      [⟨1, 1, .potential⟩, ⟨2, 1, .potential⟩]) ∧
    MatchingService.find_candidates_for_vacancy
        [⟨2, 1, .potential⟩, ⟨1, 1, .potential⟩] 20 0 true ≠
      MatchingService.find_candidates_for_vacancy
        [⟨1, 1, .potential⟩, ⟨2, 1, .potential⟩] 20 0 true := by
  constructor
  · exact List.Perm.swap _ _ _
  · have h1 : MatchingService.find_candidates_for_vacancy
        [⟨2, 1, .potential⟩, ⟨1, 1, .potential⟩] 20 0 true
        = [(1, ⟨2, 1, .potential⟩), (2, ⟨1, 1, .potential⟩)] := by
      simp [MatchingService.find_candidates_for_vacancy, MatchingService.find_candidates_order,
        MatchingService.candidate_filter, List.insertionSort, List.orderedInsert, List.enum,
        List.enumFrom]
    have h2 : MatchingService.find_candidates_for_vacancy
        [⟨1, 1, .potential⟩, ⟨2, 1, .potential⟩] 20 0 true
        = [(1, ⟨1, 1, .potential⟩), (2, ⟨2, 1, .potential⟩)] := by
      simp [MatchingService.find_candidates_for_vacancy, MatchingService.find_candidates_order,
        MatchingService.candidate_filter, List.insertionSort, List.orderedInsert, List.enum,
        List.enumFrom]
    rw [h1, h2]
    simp

/-- C8 amended: for a fixed input sequence the ranking is a deterministic
stable sort descending by total score with no secondary key: the output
order is a permutation of the filtered input sorted by descending score, and
any two kept candidates whose scores permit their arrival order (in
particular, any tie) keep that arrival order; the ranked result is the
rank-numbered truncation of that order. -/
theorem c8_stable_sort (cands : List MatchingService.Candidate) (limit : Nat) (min_score : ℚ)
    (include_stretch : Bool) (a b : MatchingService.Candidate)
    (hab : [a, b].Sublist (MatchingService.candidate_filter min_score include_stretch cands))
    (hba : b.total_score ≤ a.total_score) :
    (MatchingService.find_candidates_order cands min_score include_stretch).Sorted
      (fun x y => y.total_score ≤ x.total_score) ∧
    (MatchingService.find_candidates_order cands min_score include_stretch).Perm
      (MatchingService.candidate_filter min_score include_stretch cands) ∧
    [a, b].Sublist (MatchingService.find_candidates_order cands min_score include_stretch) ∧
    MatchingService.find_candidates_for_vacancy cands limit min_score include_stretch
      = ((MatchingService.find_candidates_order cands min_score include_stretch).take
          limit).enum.map (fun p => (p.1 + 1, p.2)) := by
  haveI : IsTotal MatchingService.Candidate (fun x y => y.total_score ≤ x.total_score) :=
    ⟨fun x y => le_total _ _⟩
  haveI : IsTrans MatchingService.Candidate (fun x y => y.total_score ≤ x.total_score) :=
    ⟨fun x y z hxy hyz => le_trans hyz hxy⟩
  refine ⟨?_, ?_, ?_, rfl⟩
  · exact List.sorted_insertionSort _ _
  · exact List.perm_insertionSort _ _
  · exact List.pair_sublist_insertionSort hba hab

/-- Witness for C8 amended: two equal-scored candidates arriving as
[id 1, id 2] pass the filter in that order and stay in that order in the
sorted ranking. -/
theorem c8_stable_sort_witness :
    ([(⟨1, 1, .potential⟩ : MatchingService.Candidate), ⟨2, 1, .potential⟩].Sublist
      (MatchingService.candidate_filter 0 true
        [⟨1, 1, .potential⟩, ⟨2, 1, .potential⟩])) ∧
    [(⟨1, 1, .potential⟩ : MatchingService.Candidate), ⟨2, 1, .potential⟩].Sublist
      (MatchingService.find_candidates_order
        [⟨1, 1, .potential⟩, ⟨2, 1, .potential⟩] 0 true) := by
  have hab : [(⟨1, 1, .potential⟩ : MatchingService.Candidate), ⟨2, 1, .potential⟩].Sublist
      (MatchingService.candidate_filter 0 true
        [⟨1, 1, .potential⟩, ⟨2, 1, .potential⟩]) := by
    have heval : MatchingService.candidate_filter 0 true
        [⟨1, 1, .potential⟩, ⟨2, 1, .potential⟩]
        = [⟨1, 1, .potential⟩, ⟨2, 1, .potential⟩] := by
      simp [MatchingService.candidate_filter]
    rw [heval]
  exact ⟨hab,
    (c8_stable_sort [⟨1, 1, .potential⟩, ⟨2, 1, .potential⟩] 20 0 true
      ⟨1, 1, .potential⟩ ⟨2, 1, .potential⟩ hab le_rfl).2.2.1⟩

/-- C9 counterexample: the code does not reject invalid inputs.  The
malformed current level "grandmaster" is silently treated as ordinal 0 (the
skill-match score evaluates to 0.0 with no error), and a requirement set
whose weights sum to zero is silently scored 0.0 by the hard-skill
scorer. -/
theorem c9_no_validation_counterexample :
    MatchingService.calculate_skill_match_score (some "grandmaster") "expert" = 0 ∧
    MatchingService.calculate_hard_skills_score
      [⟨1, "Python", "expert", some "expert", 1, false, 0, "none"⟩] = 0 := by
  constructor
  · have h1 : MatchingService.level_scores.lookup "grandmaster" = none := rfl
    simp [MatchingService.calculate_skill_match_score, h1, level_scores_lookup_expert]
  · simp [MatchingService.calculate_hard_skills_score]

/-- C9 amended: invalid inputs are silently coerced rather than rejected — a
current level outside the five-value scale is treated as ordinal 0 (score
0.0 against any scale requirement), a required level outside the scale is
treated as ordinal 1 (score 1.0 for any scale current level), and a
requirement list whose effective weights sum to zero is scored 0.0. -/
theorem c9_silent_coercion (c r cv rv : String) (cn rn : Nat) (ms : List MatchingService.SkillMatch)
    (hc : MatchingService.level_scores.lookup c = none)
    (hr : MatchingService.level_scores.lookup r = none)
    (hcv : (cv, cn) ∈ MatchingService.level_scores)
    (hrv : (rv, rn) ∈ MatchingService.level_scores)
    (hw : (ms.map (fun m => m.weight * (if m.is_critical then 2 else 1))).sum = 0) :
    MatchingService.calculate_skill_match_score (some c) rv = 0 ∧
    MatchingService.calculate_skill_match_score (some cv) r = 1 ∧
    MatchingService.calculate_hard_skills_score ms = 0 := by
  refine ⟨?_, ?_, ?_⟩
  · by_cases hc0 : c = ""
    · simp [MatchingService.calculate_skill_match_score, hc0]
    · simp only [MatchingService.level_scores, List.mem_cons, List.not_mem_nil, or_false,
        Prod.mk.injEq] at hrv
      rcases hrv with ⟨rfl, rfl⟩ | ⟨rfl, rfl⟩ | ⟨rfl, rfl⟩ | ⟨rfl, rfl⟩ | ⟨rfl, rfl⟩ <;>
        simp [MatchingService.calculate_skill_match_score, hc, hc0,
          level_scores_lookup_novice, level_scores_lookup_beginner,
          level_scores_lookup_intermediate, level_scores_lookup_advanced,
          level_scores_lookup_expert]
  · simp only [MatchingService.level_scores, List.mem_cons, List.not_mem_nil, or_false,
      Prod.mk.injEq] at hcv
    rcases hcv with ⟨rfl, rfl⟩ | ⟨rfl, rfl⟩ | ⟨rfl, rfl⟩ | ⟨rfl, rfl⟩ | ⟨rfl, rfl⟩ <;>
      simp [MatchingService.calculate_skill_match_score, hr,
        level_scores_lookup_novice, level_scores_lookup_beginner,
        level_scores_lookup_intermediate, level_scores_lookup_advanced,
        level_scores_lookup_expert]
  · rw [MatchingService.calculate_hard_skills_score]
    split_ifs with h1 h2
    · rfl
    · rw [hw] at h2; exact absurd h2 (lt_irrefl 0)
    · rfl

/-- Witness for C9 amended, at the malformed levels "grandmaster" and "guru"
and a single zero-weight requirement. -/
theorem c9_silent_coercion_witness :
    MatchingService.calculate_skill_match_score (some "grandmaster") "expert" = 0 ∧
    MatchingService.calculate_skill_match_score (some "expert") "guru" = 1 ∧
    MatchingService.calculate_hard_skills_score
      [⟨1, "Python", "expert", some "expert", 1, false, 0, "none"⟩] = 0 :=
  c9_silent_coercion "grandmaster" "guru" "expert" "expert" 5 5
    [⟨1, "Python", "expert", some "expert", 1, false, 0, "none"⟩]
    (by decide) (by decide) (by decide) (by decide) (by norm_num)

/-- C10: on every valid input (current level absent or on the five-value
scale, required level on the scale, any criticality flag) the string-keyed
`MatchingService._calculate_gap_severity` and the enum-keyed
`SkillGraphService._calculate_gap_severity` return the same severity. -/
theorem c10_gap_severity_implementations_agree (cp rp : String × SkillLevel) (crit : Bool)
    (hc : cp ∈ level_values) (hr : rp ∈ level_values) :
    MatchingService.calculate_gap_severity none rp.1 crit
      = SkillGraphService.calculate_gap_severity none rp.2 crit ∧
    MatchingService.calculate_gap_severity (some cp.1) rp.1 crit
      = SkillGraphService.calculate_gap_severity (some cp.2) rp.2 crit := by
  simp only [level_values, List.mem_cons, List.not_mem_nil, or_false] at hc hr
  rcases hc with rfl | rfl | rfl | rfl | rfl <;>
    rcases hr with rfl | rfl | rfl | rfl | rfl <;>
    cases crit <;> exact ⟨rfl, rfl⟩

/-- Witness for C10 at current beginner against required expert, critical. -/
theorem c10_gap_severity_implementations_agree_witness :
    MatchingService.calculate_gap_severity (some "beginner") "expert" true
      = SkillGraphService.calculate_gap_severity (some .beginner) .expert true :=
  (c10_gap_severity_implementations_agree ("beginner", .beginner) ("expert", .expert) true
    (by decide) (by decide)).2
